import Mathlib

/-!
Shallow embedding of `collection::Vector` from `src/include/vector.h`.

Modelling choices:
- The backing buffer `array_` of `capacity_` allocated slots is a
  `List (Option α)` of length `capacity_`: `some v` is a constructed slot
  holding `v`, `none` is allocated-but-unconstructed raw storage.
  Every `Memory::allocate(allocator_, n)` in the source is immediately paired
  with `capacity_ = n`, so `capacity_` is always the length of the buffer and
  we model it as `slots.length` rather than a separate field.
- `Memory::construct(allocator_, p, v)` is `slots.set i (some v)` and
  `Memory::destroy(allocator_, p)` is `slots.set i none`, where `i` is the
  offset `p - array_`. A write past the end of the buffer is undefined
  behaviour in the source; `List.set` out of range is a no-op, which still
  lets the modelled `size_` / `capacity_` bookkeeping show such states.
- Pointers (`Iterator` = `Value*`) are modelled as offsets from `array_`,
  so `begin()` is `0` and `end()` is `size_`.
- Element moves (`std::move`) are modelled as plain copies of the slot
  content, which is exact for trivially copyable element types such as the
  `int` instantiation used by the demonstration program.
- Loops written with raw pointer arithmetic are translated to structural
  recursion on the exact iteration count of the loop.
-/

namespace Collection

/-- State of a `collection::Vector<Value>`: the allocated buffer (one entry
per slot, length = `capacity_`) and the live-element count `size_`. -/
structure VecState (α : Type) where
  slots : List (Option α)
  size : Nat
  deriving Repr, DecidableEq

variable {α : Type}

/-- `capacity_`: the number of allocated slots. -/
def capacity (s : VecState α) : Nat := s.slots.length

/-- `begin()` / `cbegin()`: the pointer `array_`, as offset 0. -/
def beginIdx (_s : VecState α) : Nat := 0

/-- `end()` / `cend()`: the pointer `array_ + size_`, as offset `size_`. -/
def endIdx (s : VecState α) : Nat := s.size

/-- `back()`: `size_ == 0 ? end() : array_ + size_ - 1`, as an offset. -/
def back (s : VecState α) : Nat := if s.size = 0 then endIdx s else s.size - 1

/-- `DEFAULT_CAPACITY = 16`. -/
def DEFAULT_CAPACITY : Nat := 16

/-- `Vector()` : the protected constructor `Vector(DEFAULT_CAPACITY, 0)`
allocates 16 slots without constructing entries and sets `size_ = 0`. -/
def freshVec : VecState Int :=
  { slots := List.replicate DEFAULT_CAPACITY none, size := 0 }

/-- The error conditions thrown by the source, by throw site:
`throwOutOfRange` carries the offending index and the current `size_`
(both appear in the `std::out_of_range` message), `throwOutOfRangeEmpty`
is the `popBack` guard, `rangeLower` / `rangeHigher` are the
`std::range_error` throws of `insert` / `erase`, and `logicError` is the
`std::logic_error` thrown by `erase` when `from > to`. -/
inductive VecError where
  | outOfRange (index : Nat) (size : Nat)
  | outOfRangeEmpty
  | rangeLower
  | rangeHigher
  | logicError
  deriving Repr, DecidableEq

/-- `increasedCapacity(capacity)`:
`capacity < 2 ? 2 : capacity + (capacity >> 1u)`. -/
def increasedCapacity (c : Nat) : Nat := if c < 2 then 2 else c + c / 2

/-- `resizeToBigger(newCapacity)`: allocates `newCapacity` raw slots, moves
the constructed elements `[0, size_)` into the front of the new buffer,
destroys and deallocates the old buffer.  Slot `i` of the new buffer holds
the old slot `i` when `i < size_` and is raw otherwise. -/
def resizeToBigger (s : VecState α) (newCapacity : Nat) : VecState α :=
  { slots := (List.range newCapacity).map
      (fun i => if i < s.size then s.slots.getD i none else none),
    size := s.size }

/-- `requireExtraSlot()`: grows to `increasedCapacity(capacity_)` when
`size_ == 0 || size_ == capacity_ - 1` (the condition actually written in
the source), otherwise does nothing.  (`capacity_ - 1` is `size_t`
arithmetic; for `capacity_ = 0` the source compares against `SIZE_MAX`,
which no reachable `size_` equals, and the Nat truncation `0 - 1 = 0`
is already covered by the `size_ == 0` disjunct.) -/
def requireExtraSlot (s : VecState α) : VecState α :=
  if s.size = 0 ∨ s.size = capacity s - 1
  then resizeToBigger s (increasedCapacity (capacity s))
  else s

/-- `pushBack(value)` (both overloads have the same effect on the state):
`requireExtraSlot()`, then construct `value` at `array_ + size_` and
increment `size_`. -/
def pushBack (s : VecState α) (v : α) : VecState α :=
  let s1 := requireExtraSlot s
  { slots := s1.slots.set s1.size (some v), size := s1.size + 1 }

/-- `popBack()`: `checkNotEmpty()` throws when `size_ == 0`; otherwise
destroy the element at `--size_`. -/
def popBack (s : VecState α) : Except VecError (VecState α) :=
  if s.size = 0 then .error .outOfRangeEmpty
  else .ok { slots := s.slots.set (s.size - 1) none, size := s.size - 1 }

/-- `at(index)`: `checkRange(index)` throws `out_of_range` (reporting the
index and `size_`) when `index >= size_`; otherwise returns a reference to
`array_[index]`.  The function does not modify the container, so it is
modelled as a pure function of the state. -/
def atChecked (s : VecState α) (i : Nat) : Except VecError (Option α) :=
  if i ≥ s.size then .error (.outOfRange i s.size) else .ok (s.slots.getD i none)

/-- The loop `for (size_t i = a; i < a + k; ++i) Memory::destroy(...)`,
expressed by recursion on the iteration count `k`. -/
def destroySteps (slots : List (Option α)) (a : Nat) : Nat → List (Option α)
  | 0 => slots
  | k + 1 => destroySteps (slots.set a none) (a + 1) k

/-- The loop `for (size_t i = a; i < a + k; ++i) Memory::construct(..., v)`,
expressed by recursion on the iteration count `k`. -/
def constructSteps (slots : List (Option α)) (v : α) (a : Nat) :
    Nat → List (Option α)
  | 0 => slots
  | k + 1 => constructSteps (slots.set a (some v)) v (a + 1) k

/-- `resize(newSize)` (the default-constructing overload): shrink destroys
`[newSize, size_)` and lowers `size_` without touching `capacity_`; grow
first calls `resizeToBigger(newSize)` when `newSize > capacity_`, then
constructs `ValueType{}` (here the value `d`) into `[size_, newSize)`. -/
def resize (s : VecState α) (d : α) (newSize : Nat) : VecState α :=
  if newSize < s.size then
    { slots := destroySteps s.slots newSize (s.size - newSize), size := newSize }
  else if s.size < newSize then
    let s1 := if capacity s < newSize then resizeToBigger s newSize else s
    { slots := constructSteps s1.slots d s.size (newSize - s.size), size := newSize }
  else s

/-- `resize(newSize, value)` (the fill overload): identical to `resize`
except that grown slots are constructed from `value`. -/
def resizeFill (s : VecState α) (v : α) (newSize : Nat) : VecState α :=
  if newSize < s.size then
    { slots := destroySteps s.slots newSize (s.size - newSize), size := newSize }
  else if s.size < newSize then
    let s1 := if capacity s < newSize then resizeToBigger s newSize else s
    { slots := constructSteps s1.slots v s.size (newSize - s.size), size := newSize }
  else s

/-- `reserve(newCapacity)`: `resizeToBigger` when `capacity_ < newCapacity`,
otherwise a no-op. -/
def reserve (s : VecState α) (newCapacity : Nat) : VecState α :=
  if capacity s < newCapacity then resizeToBigger s newCapacity else s

/-- `clear()`: destroys the elements `[0, size_)` and sets `size_ = 0`;
`capacity_` is retained. -/
def clear (s : VecState α) : VecState α :=
  { slots := destroySteps s.slots 0 s.size, size := 0 }

/-- The backward shift loop of `uncheckedInsert`:
starting at `target = array_ + t`, repeat `current = target--;
*current = std::move(*target);` until `target` reaches `array_ + bound`.
When `bound < t` the loop body runs exactly `t - bound` times, which is the
recursion fuel `k` here. -/
def shiftRightSteps (slots : List (Option α)) (t : Nat) :
    Nat → List (Option α)
  | 0 => slots
  | k + 1 => shiftRightSteps (slots.set t (slots.getD (t - 1) none)) (t - 1) k

/-- `uncheckedInsert(Iterator position, ConstReference value)` — the copy
overload.  `index = position - array_`; after `requireExtraSlot()` and
`oldSize = size_++`: if `index == oldSize` it constructs the value at
`array_ + size_` (the ALREADY incremented size, i.e. slot `oldSize + 1`);
otherwise it constructs slot `oldSize` from slot `oldSize - 1`, runs the
backward shift loop down to `array_ + index`, destroys slot `index` and
copy-constructs the value there. -/
def uncheckedInsertCopy (s : VecState α) (index : Nat) (value : α) : VecState α :=
  let s1 := requireExtraSlot s
  let oldSize := s1.size
  if index = oldSize then
    { slots := s1.slots.set (oldSize + 1) (some value), size := oldSize + 1 }
  else
    let slots1 := s1.slots.set oldSize (s1.slots.getD (oldSize - 1) none)
    let slots2 := shiftRightSteps slots1 oldSize (oldSize - index)
    { slots := (slots2.set index none).set index (some value), size := oldSize + 1 }

/-- `uncheckedInsert(ConstIterator position, RValueReference value)` — the
move overload.  Same shape as the copy overload, but the end-position
branch constructs at `array_ + oldSize` (the un-incremented size), and the
interior branch ends with a move-assignment `*target = value` instead of
destroy-then-construct. -/
def uncheckedInsertMove (s : VecState α) (index : Nat) (value : α) : VecState α :=
  let s1 := requireExtraSlot s
  let oldSize := s1.size
  if index = oldSize then
    { slots := s1.slots.set oldSize (some value), size := oldSize + 1 }
  else
    let slots1 := s1.slots.set oldSize (s1.slots.getD (oldSize - 1) none)
    let slots2 := shiftRightSteps slots1 oldSize (oldSize - index)
    { slots := slots2.set index (some value), size := oldSize + 1 }

/-- `insert(Iterator position, ConstReference value)` — the copy overload.
Lower check `position < array_` cannot fire for a nonnegative offset; the
upper check in the source is `position > array_ + 1`, i.e. `index > 1`. -/
def insertCopy (s : VecState α) (index : Nat) (value : α) :
    Except VecError (VecState α) :=
  if index > 1 then .error .rangeHigher
  else .ok (uncheckedInsertCopy s index value)

/-- `insert(ConstIterator position, RValueReference value)` — the move
overload.  Lower check `position < array_` cannot fire for a nonnegative
offset; the upper check is `position > cend()`, i.e. `index > size_`. -/
def insertMove (s : VecState α) (index : Nat) (value : α) :
    Except VecError (VecState α) :=
  if index > s.size then .error .rangeHigher
  else .ok (uncheckedInsertMove s index value)

/-- The shift loop of `uncheckedErase`:
`for (auto source = to, target = from; source != end; ++source)
  *target = std::move(*source);` — note that `target` is never advanced,
so every iteration assigns into slot `fromIdx`.  The loop body runs exactly
`end - to` times, which is the recursion fuel `k` here. -/
def eraseShiftSteps (fromIdx : Nat) (slots : List (Option α)) (source : Nat) :
    Nat → List (Option α)
  | 0 => slots
  | k + 1 =>
    eraseShiftSteps fromIdx (slots.set fromIdx (slots.getD source none)) (source + 1) k

/-- `uncheckedErase(from, to)`: runs the shift loop, then destroys the
slots `[end - delta, end)` where `delta = to - from`, then decreases
`size_` by `delta`. -/
def uncheckedErase (s : VecState α) (fromIdx toIdx : Nat) : VecState α :=
  let endIdx := s.size
  let slots1 := eraseShiftSteps fromIdx s.slots toIdx (endIdx - toIdx)
  let delta := toIdx - fromIdx
  let slots2 := destroySteps slots1 (endIdx - delta) delta
  { slots := slots2, size := s.size - delta }

/-- `erase(from, to)`: throws `logic_error` when `from > to`; the two
lower-bound `range_error` checks cannot fire for nonnegative offsets; then
throws `range_error` when `from > cend()` or `to > cend()`; otherwise
`uncheckedErase(from, to)`. -/
def erase (s : VecState α) (fromIdx toIdx : Nat) :
    Except VecError (VecState α) :=
  if fromIdx > toIdx then .error .logicError
  else if fromIdx > s.size then .error .rangeHigher
  else if toIdx > s.size then .error .rangeHigher
  else .ok (uncheckedErase s fromIdx toIdx)

/-- `erase(position)`: `erase(position, position + 1)`. -/
def erasePos (s : VecState α) (position : Nat) : Except VecError (VecState α) :=
  erase s position (position + 1)

/-- `operator=(Vector&& other)` (also `swap`): swaps `array_`, `size_` and
`capacity_` between the two vectors, i.e. swaps the entire modelled state.
The result pair is (the assigned-to vector, the moved-from vector). -/
def moveAssign (this_ other : VecState α) : VecState α × VecState α :=
  (⟨other.slots, other.size⟩, ⟨this_.slots, this_.size⟩)

/-- The public operations reachable from the demonstration entry point,
starting from a default-constructed `Vector<int>` (for `int`,
`ValueType{}` value-initialises to `0`, hence `resize` below uses `0` as
the default element).  Operations that throw produce no new state, so only
`.ok` results extend reachability. -/
inductive Reachable : VecState Int → Prop where
  | fresh : Reachable freshVec
  | push {s : VecState Int} (v : Int) : Reachable s → Reachable (pushBack s v)
  | pop {s t : VecState Int} : Reachable s → popBack s = .ok t → Reachable t
  | insC {s t : VecState Int} (p : Nat) (v : Int) :
      Reachable s → insertCopy s p v = .ok t → Reachable t
  | insM {s t : VecState Int} (p : Nat) (v : Int) :
      Reachable s → insertMove s p v = .ok t → Reachable t
  | ers {s t : VecState Int} (a b : Nat) :
      Reachable s → erase s a b = .ok t → Reachable t
  | ersP {s t : VecState Int} (p : Nat) :
      Reachable s → erasePos s p = .ok t → Reachable t
  | res {s : VecState Int} (n : Nat) : Reachable s → Reachable (resize s 0 n)
  | resF {s : VecState Int} (n : Nat) (v : Int) :
      Reachable s → Reachable (resizeFill s v n)
  | rsv {s : VecState Int} (n : Nat) : Reachable s → Reachable (reserve s n)
  | clr {s : VecState Int} : Reachable s → Reachable (clear s)

/-- A sample well-formed state used by witnesses: the buffer holds
`[1, 5, 127]` live with one spare raw slot. -/
def sampleVec : VecState Int :=
  { slots := [some 1, some 5, some 127, none], size := 3 }

end Collection

namespace Collection

variable {α : Type}

/- Helper lemmas about the slot-buffer primitives. -/

theorem getD_set_of_ne (l : List (Option α)) {i j : Nat} (h : i ≠ j)
    (v : Option α) : (l.set i v).getD j none = l.getD j none := by
  simp [List.getD_eq_getElem?_getD, List.getElem?_set_ne h]

theorem getD_set_self_none (l : List (Option α)) (i : Nat) :
    (l.set i none).getD i none = none := by
  by_cases h : i < l.length
  · simp [List.getD_eq_getElem?_getD, List.getElem?_set_self h]
  · rw [List.getD_eq_getElem?_getD, List.getElem?_eq_none]
    · rfl
    · simpa using Nat.le_of_not_lt h

theorem destroySteps_length (slots : List (Option α)) (a k : Nat) :
    (destroySteps slots a k).length = slots.length := by
  induction k generalizing slots a with
  | zero => rfl
  | succ k ih => rw [destroySteps, ih, List.length_set]

theorem destroySteps_getD (slots : List (Option α)) (a k i : Nat) :
    (destroySteps slots a k).getD i none =
      if a ≤ i ∧ i < a + k then none else slots.getD i none := by
  induction k generalizing slots a with
  | zero =>
    have h0 : ¬ (a ≤ i ∧ i < a + 0) := by omega
    rw [destroySteps, if_neg h0]
  | succ k ih =>
    rw [destroySteps, ih]
    by_cases hi : i = a
    · subst hi
      have h1 : ¬ (i + 1 ≤ i ∧ i < i + 1 + k) := by omega
      have h2 : i ≤ i ∧ i < i + (k + 1) := by omega
      rw [if_neg h1, if_pos h2]
      exact getD_set_self_none slots i
    · rw [getD_set_of_ne _ (fun h => hi h.symm)]
      by_cases h3 : a ≤ i ∧ i < a + (k + 1)
      · have h4 : a + 1 ≤ i ∧ i < a + 1 + k := by omega
        rw [if_pos h3, if_pos h4]
      · have h4 : ¬ (a + 1 ≤ i ∧ i < a + 1 + k) := by omega
        rw [if_neg h3, if_neg h4]

end Collection

namespace Collection

/-- Claim C1: the spec requires `0 ≤ size ≤ capacity` in every reachable
state.  The code violates it: starting from a default-constructed
`Vector<int>`, `resize(17)` produces size 17 = capacity 17, and the next
`pushBack` does not grow (its guard only fires at `size == 0` or
`size == capacity - 1`), writing past the buffer and reaching size 18 with
capacity 17. -/
theorem c1_reachable_state_exceeds_capacity :
    Reachable (pushBack (resize freshVec 0 17) 7) ∧
      capacity (pushBack (resize freshVec 0 17) 7) <
        (pushBack (resize freshVec 0 17) 7).size :=
  ⟨Reachable.push 7 (Reachable.res 17 Reachable.fresh), by decide⟩

/-- Claim C2: the spec says `requireExtraSlot` is a no-op when
`size < capacity` and grows exactly when `size == capacity`.  The code
instead grows when `size == 0 || size == capacity - 1`: on a fresh state
(size 0, capacity 16, so size < capacity) it reallocates to capacity 24,
and on a completely full state (size 2 = capacity 2) it does nothing. -/
theorem c2_requireExtraSlot_deviates :
    (freshVec.size < capacity freshVec ∧
      capacity (requireExtraSlot freshVec) = 24) ∧
    (({ slots := [some 1, some 2], size := 2 } : VecState Int).size =
        capacity { slots := [some 1, some 2], size := 2 } ∧
      requireExtraSlot ({ slots := [some 1, some 2], size := 2 } : VecState Int) =
        { slots := [some 1, some 2], size := 2 }) := by
  decide

/-- Claim C3: the spec says insert at logical index `p` yields
`old[0,p) ++ [v] ++ old[p,n)`.  The copy overload violates this at
`p = n`: after `size_++` it constructs the value at `array_ + size_`,
i.e. slot `n + 1`, leaving the live slot `n` unconstructed.  Here, from
`[1]` (size 1, capacity 2), inserting `5` at index 1 first regrows to
capacity 3 and then yields raw slot 1 and the value stranded in slot 2,
instead of `[1, 5]`. -/
theorem c3_insert_copy_at_end_misplaces :
    uncheckedInsertCopy ({ slots := [some 1, none], size := 1 } : VecState Int) 1 5 =
      { slots := [some 1, none, some 5], size := 2 } := by
  decide

/-- Claim C4: the spec says `insert` fails iff the index is outside
`[0, size]`.  The copy overload instead compares the position against
`array_ + 1`: inserting at index 2 into `[1, 5, 127]` (size 3, a valid
position) is rejected with a range error. -/
theorem c4_insert_copy_rejects_valid_index :
    insertCopy sampleVec 2 (99 : Int) = .error .rangeHigher := rfl

/-- Claim C5: the spec says `erase(from, to)` shifts `[to, size)` left
onto `[from, ...)`.  The shift loop never advances `target`, so every
element of `[to, size)` is assigned into slot `from`; erasing `[1, 2)`
from `[2, 4, 8, 99]` therefore yields live prefix `[2, 99, 8]` instead of
`[2, 8, 99]`. -/
theorem c5_erase_fails_to_shift :
    erase ({ slots := [some 2, some 4, some 8, some 99], size := 4 } : VecState Int)
        1 2 =
      .ok { slots := [some 2, some 99, some 8, none], size := 3 } := rfl

/-- Claim C6: `at(i)` returns the element at slot `i` when `i < size` and
fails with an out-of-range condition reporting both `i` and `size` when
`i ≥ size`; it never modifies the state (it is a pure function of the
state in this model). -/
theorem c6_at_checked_spec (s : VecState α) (i : Nat) :
    (i < s.size → atChecked s i = .ok (s.slots.getD i none)) ∧
    (s.size ≤ i → atChecked s i = .error (.outOfRange i s.size)) := by
  constructor
  · intro h
    simp [atChecked, Nat.not_le.mpr h]
  · intro h
    simp [atChecked, h]

/-- Witness for C6 at a concrete state: reading index 1 of `[1, 5, 127]`
succeeds with 5, and reading index 9 fails reporting index 9 and size 3. -/
theorem c6_at_checked_spec_witness :
    (1 < sampleVec.size ∧ atChecked sampleVec 1 = .ok (some 5)) ∧
    (sampleVec.size ≤ 9 ∧ atChecked sampleVec 9 = .error (.outOfRange 9 3)) :=
  ⟨⟨by decide, (c6_at_checked_spec sampleVec 1).1 (by decide)⟩,
   ⟨by decide, (c6_at_checked_spec sampleVec 9).2 (by decide)⟩⟩

/-- Claim C7: the spec says inserting `v` at index `i` and erasing
`[i, i+1)` restores the original sequence.  Due to the erase shift bug it
does not: from `[2, 4]`, inserting 9 at index 0 gives `[9, 2, 4]`, but the
subsequent `erase(0, 1)` yields `[4, 2]`, not the original `[2, 4]`. -/
theorem c7_round_trip_not_restored :
    (insertCopy ({ slots := [some 2, some 4, none, none], size := 2 } : VecState Int)
        0 9).bind (fun r => erase r 0 1) =
      .ok { slots := [some 4, some 2, none, none], size := 2 } := rfl

/-- Claim C8: for `k < size`, `resize(k)` (either overload — the fill
overload takes the identical shrink path) destroys exactly the slots
`[k, size)`, sets the size to `k`, leaves the first `k` slots and the
slots at and beyond the old size unchanged, and never changes the
capacity. -/
theorem c8_resize_shrink_frame (s : VecState α) (d v : α) (k : Nat)
    (h : k < s.size) :
    ((resize s d k).size = k ∧
      capacity (resize s d k) = capacity s ∧
      (∀ i, i < k → (resize s d k).slots.getD i none = s.slots.getD i none) ∧
      (∀ i, k ≤ i → i < s.size → (resize s d k).slots.getD i none = none) ∧
      (∀ i, s.size ≤ i → (resize s d k).slots.getD i none = s.slots.getD i none)) ∧
    resizeFill s v k = resize s d k := by
  refine ⟨⟨?_, ?_, ?_, ?_, ?_⟩, ?_⟩
  · simp [resize, h]
  · simp [resize, h, capacity, destroySteps_length]
  · intro i hi
    rw [resize, if_pos h]
    simp only
    rw [destroySteps_getD]
    have : ¬ (k ≤ i ∧ i < k + (s.size - k)) := by omega
    simp [this]
  · intro i hki hi
    rw [resize, if_pos h]
    simp only
    rw [destroySteps_getD]
    have : k ≤ i ∧ i < k + (s.size - k) := by omega
    simp [this]
  · intro i hi
    rw [resize, if_pos h]
    simp only
    rw [destroySteps_getD]
    have : ¬ (k ≤ i ∧ i < k + (s.size - k)) := by omega
    simp [this]
  · rw [resize, resizeFill, if_pos h, if_pos h]

/-- Witness for C8: shrinking `[1, 5, 127]` (size 3, capacity 4) to size 2
keeps capacity 4 and the first two elements, destroying slot 2 only. -/
theorem c8_resize_shrink_frame_witness :
    2 < sampleVec.size ∧
      (((resize sampleVec 0 2).size = 2 ∧
        capacity (resize sampleVec 0 2) = capacity sampleVec ∧
        (∀ i, i < 2 →
          (resize sampleVec 0 2).slots.getD i none = sampleVec.slots.getD i none) ∧
        (∀ i, 2 ≤ i → i < sampleVec.size →
          (resize sampleVec 0 2).slots.getD i none = none) ∧
        (∀ i, sampleVec.size ≤ i →
          (resize sampleVec 0 2).slots.getD i none = sampleVec.slots.getD i none)) ∧
      resizeFill sampleVec 7 2 = resize sampleVec 0 2) :=
  ⟨by decide, c8_resize_shrink_frame sampleVec 0 7 2 (by decide)⟩

/-- Claim C9: move-assignment `a = std::move(b)` swaps `array_`, `size_`
and `capacity_`: the target ends up with exactly the buffer, size and
capacity the source had, and the source ends up with those the target had
(so the moved-from vector is not emptied but holds the old contents of the
target). -/
theorem c9_move_assign_swaps (a b : VecState α) :
    (moveAssign a b).1.slots = b.slots ∧ (moveAssign a b).1.size = b.size ∧
    capacity (moveAssign a b).1 = capacity b ∧
    (moveAssign a b).2.slots = a.slots ∧ (moveAssign a b).2.size = a.size ∧
    capacity (moveAssign a b).2 = capacity a :=
  ⟨rfl, rfl, rfl, rfl, rfl, rfl⟩

/-- Claim C10: `back()` never leaves the live range: on an empty vector it
returns `end()` (which equals `begin()` there), and on a non-empty vector
it returns the position of the live element at index `size - 1`. -/
theorem c10_back_in_live_range (s : VecState α) :
    (s.size = 0 → back s = endIdx s ∧ back s = beginIdx s) ∧
    (0 < s.size → back s = s.size - 1 ∧ back s < s.size) := by
  constructor
  · intro h
    simp [back, endIdx, beginIdx, h]
  · intro h
    have h0 : ¬ s.size = 0 := by omega
    refine ⟨by simp [back, h0], ?_⟩
    simp only [back, h0, if_false]
    omega

/-- Witness for C10: on the empty fresh vector `back` equals `end` and
`begin`; on `[1, 5, 127]` it is index 2, inside the live range. -/
theorem c10_back_in_live_range_witness :
    (freshVec.size = 0 ∧ back freshVec = endIdx freshVec ∧
      back freshVec = beginIdx freshVec) ∧
    (0 < sampleVec.size ∧ back sampleVec = sampleVec.size - 1 ∧
      back sampleVec < sampleVec.size) :=
  ⟨⟨by decide, (c10_back_in_live_range freshVec).1 (by decide)⟩,
   ⟨by decide, (c10_back_in_live_range sampleVec).2 (by decide)⟩⟩

end Collection
